import Mathlib

/-!
Verification of the daggboard multi-chain event indexer.

This file shallowly embeds the parts of the Rust sources that the verified
properties talk about:

* `src/utils.rs`    — `hash_log` (SHA-256 content id) and `to_topic`;
* `src/database.rs` — row shapes of the six DuckDB tables, the
  `INSERT OR IGNORE` insert operations, `last_indexed_block`,
  `synced_till_block`, `fetch_wrapped_tokens`, `insert_rollup`;
* `src/indexer.rs`  — `Indexer::new`, `get_block_increment`,
  `distance_head`, and one iteration of the `index` loop (`indexStep`),
  with the per-iteration chain interaction abstracted into a `ChainEnv`
  and the externally visible actions (RPC queries, inserts, checkpoint
  writes, error logging) collected into an `Op` trace;
* `src/main.rs`     — the `/query` handler's mutating-keyword screen.

Machine integers are modelled as `Nat`; `u64` subtraction (the only place
where overflow matters) is modelled with an explicit `% 2 ^ 64` wrap, which
is the behaviour of Rust release builds. SHA-256 is implemented in full,
operating on the UTF-8 bytes of the hashed string, so that content ids are
computable.
-/

/-! ## SHA-256 (the `sha2` crate as used by `hash_log`) -/

/-- 32-bit rotate right on a `Nat` holding a value `< 2 ^ 32`. -/
def rotr32 (n x : Nat) : Nat :=
  ((x >>> n) ||| (x <<< (32 - n))) % 2 ^ 32

def shaCh (x y z : Nat) : Nat :=
  (x &&& y) ^^^ ((x ^^^ 0xffffffff) &&& z)

def shaMaj (x y z : Nat) : Nat :=
  (x &&& y) ^^^ (x &&& z) ^^^ (y &&& z)

def bigSigma0 (x : Nat) : Nat := rotr32 2 x ^^^ rotr32 13 x ^^^ rotr32 22 x

def bigSigma1 (x : Nat) : Nat := rotr32 6 x ^^^ rotr32 11 x ^^^ rotr32 25 x

def smallSigma0 (x : Nat) : Nat := rotr32 7 x ^^^ rotr32 18 x ^^^ (x >>> 3)

def smallSigma1 (x : Nat) : Nat := rotr32 17 x ^^^ rotr32 19 x ^^^ (x >>> 10)

/-- The 64 SHA-256 round constants (FIPS 180-4), written in decimal. -/
def k256 : List Nat :=
  [1116352408, 1899447441, 3049323471, 3921009573, 961987163, 1508970993,
   2453635748, 2870763221, 3624381080, 310598401, 607225278, 1426881987,
   1925078388, 2162078206, 2614888103, 3248222580, 3835390401, 4022224774,
   264347078, 604807628, 770255983, 1249150122, 1555081692, 1996064986,
   2554220882, 2821834349, 2952996808, 3210313671, 3336571891, 3584528711,
   113926993, 338241895, 666307205, 773529912, 1294757372, 1396182291,
   1695183700, 1986661051, 2177026350, 2456956037, 2730485921, 2820302411,
   3259730800, 3345764771, 3516065817, 3600352804, 4094571909, 275423344,
   430227734, 506948616, 659060556, 883997877, 958139571, 1322822218,
   1537002063, 1747873779, 1955562222, 2024104815, 2227730452, 2361852424,
   2428436474, 2756734187, 3204031479, 3329325298]

/-- The initial SHA-256 hash state (FIPS 180-4), written in decimal. -/
def initH : List Nat :=
  [1779033703, 3144134277, 1013904242, 2773480762,
   1359893119, 2600822924, 528734635, 1541459225]

/-- UTF-8 encoding of one character, as byte values. -/
def charUtf8 (c : Char) : List Nat :=
  let n := c.toNat
  if n < 0x80 then [n]
  else if n < 0x800 then
    [0xc0 ||| (n >>> 6), 0x80 ||| (n &&& 0x3f)]
  else if n < 0x10000 then
    [0xe0 ||| (n >>> 12), 0x80 ||| ((n >>> 6) &&& 0x3f), 0x80 ||| (n &&& 0x3f)]
  else
    [0xf0 ||| (n >>> 18), 0x80 ||| ((n >>> 12) &&& 0x3f),
     0x80 ||| ((n >>> 6) &&& 0x3f), 0x80 ||| (n &&& 0x3f)]

/-- UTF-8 bytes of a string. -/
def strBytes (s : String) : List Nat :=
  (s.data.map charUtf8).flatten

/-- Big-endian 8-byte rendering of a bit length. -/
def be64 (n : Nat) : List Nat :=
  [(n >>> 56) % 256, (n >>> 48) % 256, (n >>> 40) % 256, (n >>> 32) % 256,
   (n >>> 24) % 256, (n >>> 16) % 256, (n >>> 8) % 256, n % 256]

/-- SHA-256 padding: append `0x80`, zero bytes to 56 mod 64, then the
bit length as 8 big-endian bytes. -/
def shaPad (msg : List Nat) : List Nat :=
  let z := (119 - (msg.length % 64)) % 64
  msg ++ [0x80] ++ List.replicate z 0 ++ be64 (msg.length * 8)

/-- Group bytes four at a time into big-endian 32-bit words. -/
def toWords : List Nat → List Nat
  | a :: b :: c :: d :: rest =>
      ((a <<< 24) + (b <<< 16) + (c <<< 8) + d) :: toWords rest
  | _ => []

/-- Split a byte list into 64-byte blocks (structural recursion on a
fuel counter so that the definition reduces in the kernel). -/
def chunksGo : Nat → List Nat → List (List Nat)
  | 0, _ => []
  | _, [] => []
  | fuel + 1, a :: rest => ((a :: rest).take 64) :: chunksGo fuel (rest.drop 63)

/-- Split a byte list into 64-byte blocks. -/
def chunks64 (l : List Nat) : List (List Nat) := chunksGo l.length l

/-- Message-schedule extension: append `n` further words. -/
def scheduleGo (w : List Nat) : Nat → List Nat
  | 0 => w
  | n + 1 =>
      let x := (smallSigma1 (w.getD (w.length - 2) 0) + w.getD (w.length - 7) 0
        + smallSigma0 (w.getD (w.length - 15) 0) + w.getD (w.length - 16) 0) % 2 ^ 32
      scheduleGo (w ++ [x]) n

/-- The 64-entry SHA-256 message schedule of one block. -/
def schedule (w16 : List Nat) : List Nat := scheduleGo w16 48

/-- One compression round; the state is the 8-word working vector. -/
def compressRound (st : List Nat) (wk : Nat × Nat) : List Nat :=
  match st with
  | [a, b, c, d, e, f, g, h] =>
      let t1 := (h + bigSigma1 e + shaCh e f g + wk.2 + wk.1) % 2 ^ 32
      let t2 := (bigSigma0 a + shaMaj a b c) % 2 ^ 32
      [(t1 + t2) % 2 ^ 32, a, b, c, (d + t1) % 2 ^ 32, e, f, g]
  | _ => st

/-- Compress one 64-byte block into the running hash state. -/
def compressBlock (h : List Nat) (block : List Nat) : List Nat :=
  let w := schedule (toWords block)
  let st := (w.zip k256).foldl compressRound h
  (h.zip st).map (fun p => (p.1 + p.2) % 2 ^ 32)

/-- SHA-256 of a byte list, as eight 32-bit words. -/
def sha256Words (msg : List Nat) : List Nat :=
  (chunks64 (shaPad msg)).foldl compressBlock initH

/-- The lowercase hex digit for a value below 16 (`'0'` is code 48,
`'a'` is code 97). -/
def hexDigit (n : Nat) : Char :=
  if n < 10 then Char.ofNat (48 + n) else Char.ofNat (87 + n)

/-- Lowercase-hex rendering of one 32-bit word. -/
def word2hex (w : Nat) : List Char :=
  [hexDigit ((w >>> 28) % 16), hexDigit ((w >>> 24) % 16),
   hexDigit ((w >>> 20) % 16), hexDigit ((w >>> 16) % 16),
   hexDigit ((w >>> 12) % 16), hexDigit ((w >>> 8) % 16),
   hexDigit ((w >>> 4) % 16), hexDigit (w % 16)]

/-- SHA-256 of a string's UTF-8 bytes, rendered as 64 lowercase hex
characters. This is the digest computation of the `sha2` crate composed
with the `{:x}` formatting used in `utils.rs`. -/
def sha256hex (s : String) : String :=
  String.mk (((sha256Words (strBytes s)).map word2hex).flatten)

/-- Sanity check of the SHA-256 implementation against the published
test vector for the string "abc". -/
theorem sha256hex_abc :
    sha256hex ("abc")
      = ("ba7816bf8f01cfea414140de5dae2223b00361a396177a9cb410ff61f20015ad") := by
  decide

/-! ## Log shape and content ids (`src/utils.rs`) -/

/-- An address, as its lowercase-hex string rendering. -/
abbrev Address := String

/-- A topic filter value (a 32-byte word, rendered as hex). -/
abbrev Topic := String

/-- The fields of an `alloy` `Log<T>` that the indexer reads after the
`Option` unwraps: emitting contract address, decoded payload `inner`, and
the transaction/block metadata. -/
structure RLog (T : Type) where
  address : Address
  inner : T
  transaction_hash : String
  block_hash : String
  block_number : Nat
  transaction_index : Nat
  log_index : Nat
deriving DecidableEq

/-- `utils.rs::hash_log`: SHA-256 over the concatenation of the rendered
transaction hash, log index and rollup id, as lowercase hex. -/
def hash_log {T : Type} (log : RLog T) (rollup_id : Nat) : String :=
  sha256hex (log.transaction_hash ++ toString log.log_index ++ toString rollup_id)

/-- `utils.rs::to_topic`: left-pad an address with 12 zero bytes (24 zero
hex characters after the `0x` prefix) to a 32-byte topic. -/
def to_topic (address : Address) : Topic :=
  ("0x") ++ String.mk (List.replicate 24 '0') ++ (address.drop 2)

/-! ## Decoded bridge events (`src/contracts.rs` ABI shapes) -/

/-- `PolygonZkEVMBridgeV2::BridgeEvent`. -/
structure BridgeEvent where
  leafType : Nat
  originNetwork : Nat
  originAddress : Address
  destinationNetwork : Nat
  destinationAddress : Address
  amount : Nat
  metadata : String
  depositCount : Nat
deriving DecidableEq

/-- `PolygonZkEVMBridgeV2::ClaimEvent` (the v2 shape with `globalIndex`). -/
structure ClaimEvent where
  globalIndex : Nat
  originNetwork : Nat
  originAddress : Address
  destinationAddress : Address
  amount : Nat
deriving DecidableEq

/-- `PolygonZkEVMBridge::ClaimEvent` (the legacy v1 shape with the narrow
`index` field). -/
structure ClaimEventV1 where
  index : Nat
  originNetwork : Nat
  originAddress : Address
  destinationAddress : Address
  amount : Nat
deriving DecidableEq

/-- `PolygonZkEVMBridgeV2::NewWrappedToken`. -/
structure NewWrappedToken where
  originNetwork : Nat
  originTokenAddress : Address
  wrappedTokenAddress : Address
  metadata : String
deriving DecidableEq

/-- `ERC20::Transfer`. -/
structure Transfer where
  from_address : Address
  to_address : Address
  value : Nat
deriving DecidableEq

/-- The v1→v2 claim conversion performed inline in `Indexer::index`: the
narrow `index` is widened into `globalIndex`, all other fields are copied. -/
def convertV1 (lg : RLog ClaimEventV1) : RLog ClaimEvent :=
  { address := lg.address
    inner :=
      { globalIndex := lg.inner.index
        destinationAddress := lg.inner.destinationAddress
        amount := lg.inner.amount
        originAddress := lg.inner.originAddress
        originNetwork := lg.inner.originNetwork }
    transaction_hash := lg.transaction_hash
    block_hash := lg.block_hash
    block_number := lg.block_number
    transaction_index := lg.transaction_index
    log_index := lg.log_index }

/-! ## The Store (`src/database.rs`)

Each table is a list of rows; every column holds the string the Rust code
binds (`.to_string()` of the corresponding value), except the `rollups`
table whose `latest_bridge_synced_block` column is a BIGINT (`Option Int`,
`none` modelling SQL NULL). `INSERT OR IGNORE` against the `id` primary
key is modelled by `insertOrIgnore`. -/

structure BridgeEventRow where
  id : String
  rollup_id : String
  transaction_hash : String
  block_hash : String
  block_number : String
  transaction_index : String
  log_index : String
  leafType : String
  originNetwork : String
  originAddress : String
  destinationNetwork : String
  destinationAddress : String
  amount : String
  metadata : String
  depositCount : String
deriving DecidableEq

structure ClaimEventRow where
  id : String
  rollup_id : String
  transaction_hash : String
  block_hash : String
  block_number : String
  transaction_index : String
  log_index : String
  version : String
  globalIndex : String
  originNetwork : String
  originAddress : String
  destinationAddress : String
  amount : String
deriving DecidableEq

structure NewWrappedTokenRow where
  id : String
  rollup_id : String
  transaction_hash : String
  block_hash : String
  block_number : String
  transaction_index : String
  log_index : String
  originNetwork : String
  originTokenAddress : String
  wrappedTokenAddress : String
  metadata : String
deriving DecidableEq

/-- Row shape shared by `wrapped_transfer_events` and
`bridge_transfer_events`. -/
structure TransferEventRow where
  id : String
  rollup_id : String
  transaction_hash : String
  block_hash : String
  block_number : String
  transaction_index : String
  log_index : String
  from_address : String
  to_address : String
  token_address : String
  value : String
deriving DecidableEq

structure RollupRow where
  rollup_id : Nat
  network_name : String
  latest_bridge_synced_block : Option Int
deriving DecidableEq

/-- The six tables created by `Database::new`. -/
structure Database where
  bridge_events : List BridgeEventRow
  claim_events : List ClaimEventRow
  new_wrapped_token_events : List NewWrappedTokenRow
  rollups : List RollupRow
  wrapped_transfer_events : List TransferEventRow
  bridge_transfer_events : List TransferEventRow
deriving DecidableEq

/-- A freshly created store: all six tables empty. -/
def emptyDatabase : Database :=
  { bridge_events := []
    claim_events := []
    new_wrapped_token_events := []
    rollups := []
    wrapped_transfer_events := []
    bridge_transfer_events := [] }

/-- `INSERT OR IGNORE` on a primary-key column selected by `key`: the row
is appended unless a row with the same key already exists, in which case
the table is unchanged. -/
def insertOrIgnore {α : Type} (key : α → String) (rows : List α) (r : α) : List α :=
  if rows.any (fun x => key x == key r) then rows else rows ++ [r]

/-- `Database::insert_bridge_event`. -/
def insert_bridge_event (db : Database) (log : RLog BridgeEvent) (rollup_id : Nat) :
    Database :=
  let row : BridgeEventRow :=
    { id := hash_log log rollup_id
      rollup_id := toString rollup_id
      transaction_hash := log.transaction_hash
      block_hash := log.block_hash
      block_number := toString log.block_number
      transaction_index := toString log.transaction_index
      log_index := toString log.log_index
      leafType := toString log.inner.leafType
      originNetwork := toString log.inner.originNetwork
      originAddress := log.inner.originAddress
      destinationNetwork := toString log.inner.destinationNetwork
      destinationAddress := log.inner.destinationAddress
      amount := toString log.inner.amount
      metadata := log.inner.metadata
      depositCount := toString log.inner.depositCount }
  { db with bridge_events := insertOrIgnore BridgeEventRow.id db.bridge_events row }

/-- `Database::insert_claim_event`. -/
def insert_claim_event (db : Database) (log : RLog ClaimEvent) (rollup_id : Nat)
    (version : Nat) : Database :=
  let row : ClaimEventRow :=
    { id := hash_log log rollup_id
      rollup_id := toString rollup_id
      transaction_hash := log.transaction_hash
      block_hash := log.block_hash
      block_number := toString log.block_number
      transaction_index := toString log.transaction_index
      log_index := toString log.log_index
      version := toString version
      globalIndex := toString log.inner.globalIndex
      originNetwork := toString log.inner.originNetwork
      originAddress := log.inner.originAddress
      destinationAddress := log.inner.destinationAddress
      amount := toString log.inner.amount }
  { db with claim_events := insertOrIgnore ClaimEventRow.id db.claim_events row }

/-- `Database::insert_new_wrapped_token_event`. -/
def insert_new_wrapped_token_event (db : Database) (log : RLog NewWrappedToken)
    (rollup_id : Nat) : Database :=
  let row : NewWrappedTokenRow :=
    { id := hash_log log rollup_id
      rollup_id := toString rollup_id
      transaction_hash := log.transaction_hash
      block_hash := log.block_hash
      block_number := toString log.block_number
      transaction_index := toString log.transaction_index
      log_index := toString log.log_index
      originNetwork := toString log.inner.originNetwork
      originTokenAddress := log.inner.originTokenAddress
      wrappedTokenAddress := log.inner.wrappedTokenAddress
      metadata := log.inner.metadata }
  { db with new_wrapped_token_events :=
      insertOrIgnore NewWrappedTokenRow.id db.new_wrapped_token_events row }

/-- The transfer row built by both transfer inserts; `token_address` is the
emitting contract address (`log.address()`). -/
def mkTransferRow (log : RLog Transfer) (rollup_id : Nat) : TransferEventRow :=
  { id := hash_log log rollup_id
    rollup_id := toString rollup_id
    transaction_hash := log.transaction_hash
    block_hash := log.block_hash
    block_number := toString log.block_number
    transaction_index := toString log.transaction_index
    log_index := toString log.log_index
    from_address := log.inner.from_address
    to_address := log.inner.to_address
    token_address := log.address
    value := toString log.inner.value }

/-- `Database::insert_wrapped_transfer_event`. -/
def insert_wrapped_transfer_event (db : Database) (log : RLog Transfer)
    (rollup_id : Nat) : Database :=
  let row := mkTransferRow log rollup_id
  { db with wrapped_transfer_events :=
      insertOrIgnore TransferEventRow.id db.wrapped_transfer_events row }

/-- `Database::insert_bridge_transfer_event`. -/
def insert_bridge_transfer_event (db : Database) (log : RLog Transfer)
    (rollup_id : Nat) : Database :=
  let row := mkTransferRow log rollup_id
  { db with bridge_transfer_events :=
      insertOrIgnore TransferEventRow.id db.bridge_transfer_events row }

/-- `Database::insert_rollup`: insert `(id, name, -1)` only when no row for
this rollup id exists; an existing row is never overwritten. -/
def insert_rollup (db : Database) (rollup_id : Nat) (network_name : String) :
    Database :=
  if db.rollups.any (fun r => r.rollup_id == rollup_id) then db
  else { db with rollups := db.rollups ++
          [{ rollup_id := rollup_id, network_name := network_name
             latest_bridge_synced_block := some (-1) }] }

/-- `Database::last_indexed_block`: 0 when the row is missing, NULL, or
negative; otherwise the stored value. -/
def last_indexed_block (db : Database) (rollup_id : Nat) : Nat :=
  match db.rollups.find? (fun r => r.rollup_id == rollup_id) with
  | none => 0
  | some row =>
    match row.latest_bridge_synced_block with
    | none => 0
    | some v => if v < 0 then 0 else v.toNat

/-- `Database::synced_till_block`: unconditional
`UPDATE rollups SET latest_bridge_synced_block = block WHERE rollup_id = ?`. -/
def synced_till_block (db : Database) (rollup_id : Nat) (block : Nat) : Database :=
  { db with rollups := db.rollups.map (fun r =>
      if r.rollup_id == rollup_id then
        { r with latest_bridge_synced_block := some (block : Int) }
      else r) }

/-- `Database::fetch_wrapped_tokens`:
`SELECT wrappedTokenAddress FROM new_wrapped_token_events WHERE rollup_id = ?`
(no DISTINCT), each returned string parsed back into an address. -/
def fetch_wrapped_tokens (db : Database) (rollup_id : Nat) : List Address :=
  (db.new_wrapped_token_events.filter
      (fun r => r.rollup_id == toString rollup_id)).map
    (fun r => r.wrappedTokenAddress)

/-! ## The Indexer (`src/indexer.rs`) -/

/-- The `Indexer` struct (without the RPC provider handle, which carries
no state the verified properties mention). -/
structure Indexer where
  bridge_address : Address
  rollup_id : Nat
  database : Database
  wrapped_tokens : List Address
  running : Bool
deriving DecidableEq

/-- `Indexer::new`: the wrapped-token list is fetched from the store (and
its length printed), but the struct is then built with
`wrapped_tokens: vec![]`, discarding the fetched list. -/
def Indexer.new (bridge_address : Address) (rollup_id : Nat) (database : Database) :
    Indexer :=
  let wrapped_tokens := fetch_wrapped_tokens database rollup_id
  let _ := wrapped_tokens.length
  { bridge_address := bridge_address
    rollup_id := rollup_id
    database := database
    running := true
    wrapped_tokens := [] }

/-- `Indexer::get_block_increment`: 1,000 for rollup ids 3 and 15,
10,000 otherwise. -/
def get_block_increment (rollup_id : Nat) : Nat :=
  if rollup_id = 3 then 1000
  else if rollup_id = 15 then 1000
  else 10000

/-- Rust `u64` subtraction in release builds: wrapping around `2 ^ 64`.
Both arguments are `u64` values, i.e. `< 2 ^ 64`. -/
def u64_wrapping_sub (a b : Nat) : Nat :=
  (a + 2 ^ 64 - b) % 2 ^ 64

/-- `Indexer::distance_head`: `latest_block - last_indexed_block` as an
unguarded `u64` subtraction, with `latest_block` the head block number
reported by the RPC. -/
def distance_head (db : Database) (rollup_id : Nat) (latest_block : Nat) : Nat :=
  u64_wrapping_sub latest_block (last_indexed_block db rollup_id)

/-! ## The `/query` handler (`src/main.rs`) -/

/-- Keyword screen of `query_handler`. -/
def prohibited : List String :=
  ["insert", "update", "delete", "create", "drop", "alter", "truncate", "replace"]

def isPrefixOfL : List Char → List Char → Bool
  | [], _ => true
  | c :: cs, d :: ds => c == d && isPrefixOfL cs ds
  | _ :: _, [] => false

/-- Whether `needle` occurs as a contiguous substring of the character
list `hay` (the semantics of Rust `str::contains` for string patterns). -/
def containsSubstrL (needle : List Char) : List Char → Bool
  | [] => isPrefixOfL needle []
  | b :: bs => isPrefixOfL needle (b :: bs) || containsSubstrL needle bs

def containsSubstr (hay needle : String) : Bool :=
  containsSubstrL needle.data hay.data

/-- Rust `str::to_lowercase`, character-wise (the prohibited keywords are
ASCII, for which this agrees with Unicode lowercasing). -/
def toLowerStr (s : String) : String :=
  String.mk (s.data.map Char.toLower)

/-- `main.rs::query_handler`, parametric in the store-execution function
`exec` that models preparing and running the SQL against DuckDB. The
handler first lowercases the query and screens it against `prohibited`;
on a hit it returns HTTP 400 with the store untouched and `exec` never
consulted. Otherwise it runs `exec`. -/
def query_handler {ρ : Type} (exec : Database → String → ρ × Database)
    (q : String) (db : Database) : Except (Nat × String) ρ × Database :=
  let lowered := toLowerStr q
  if prohibited.any (fun kw => containsSubstr lowered kw) then
    (Except.error (400, "Mutating queries are not allowed"), db)
  else
    let res := exec db q
    (Except.ok res.1, res.2)

/-! ## One iteration of the worker loop (`Indexer::index`)

The loop-local mutable variables (`last_processed_block`, `latest_block`)
are part of the step state. The chain interaction of one iteration is
abstracted into a `ChainEnv`: each `get_logs` call is a function of the
filter parameters the code passes, and `blockNumber` answers the
`get_block_number` call of the iteration. Pass-1 logs arrive already
classified by the decode cascade (the `if let Ok(..) = log.log_decode`
chain tried in source order), as the spec's design notes prescribe;
pass-2/pass-3 `Transfer` logs arrive as decode results (`Except`), since
`log_decode::<Transfer>()` can fail on malformed logs. -/

/-- Outcome of the pass-1 decode cascade for one bridge-contract log. -/
inductive Pass1Log where
  | bridgeEvent (lg : RLog BridgeEvent)
  | claimV1 (lg : RLog ClaimEventV1)
  | claimV2 (lg : RLog ClaimEvent)
  | newWrappedToken (lg : RLog NewWrappedToken)
  | ignored
  | unknown (tx_hash : String)
deriving DecidableEq

/-- Address filter of a `get_logs` call. -/
inductive AddrFilter where
  | any
  | single (a : Address)
  | many (as : List Address)
deriving DecidableEq

/-- Externally visible actions of one loop iteration, in program order. -/
inductive Op where
  | getLogs (from_block to_block : Nat) (addr : AddrFilter)
      (eventSig : Option String) (topic1 : Option Topic) (topic2 : Option Topic)
  | insertRow (table : String) (id : String)
  | logError (msg : String)
  | setCheckpoint (rollup_id : Nat) (block : Nat)
deriving DecidableEq

/-- The chain as seen by one loop iteration. -/
structure ChainEnv where
  blockNumber : Nat
  bridgeLogs : Nat → Nat → List Pass1Log
  mintLogs : Nat → Nat → List Address → List (Except String (RLog Transfer))
  burnLogs : Nat → Nat → List Address → List (Except String (RLog Transfer))
  outLogs : Nat → Nat → List (Except String (RLog Transfer))
  inLogs : Nat → Nat → List (Except String (RLog Transfer))

/-- Worker step state: the `Indexer` fields plus the loop-local
`last_processed_block` and `latest_block`. -/
structure IndexerState where
  bridge_address : Address
  rollup_id : Nat
  database : Database
  wrapped_tokens : List Address
  running : Bool
  last_processed_block : Nat
  latest_block : Nat
deriving DecidableEq

def transfer_sig : String := "Transfer(address,address,uint256)"

def zero_address : Address := "0x0000000000000000000000000000000000000000"

/-- Pass 1: the bridge-contract log loop. Each log is inserted according
to its decoded shape; a `NewWrappedToken` additionally pushes its wrapped
address onto the in-memory set; the ignored shapes do nothing; an
undecodable log panics (`Err`) with the offending transaction hash. -/
def pass1 (db : Database) (rid : Nat) (wt : List Address) :
    List Pass1Log → Except String (Database × List Address × List Op)
  | [] => Except.ok (db, wt, [])
  | Pass1Log.bridgeEvent lg :: rest =>
    match pass1 (insert_bridge_event db lg rid) rid wt rest with
    | Except.error e => Except.error e
    | Except.ok (d, w, ops) =>
      Except.ok (d, w, Op.insertRow ("bridge_events") (hash_log lg rid) :: ops)
  | Pass1Log.claimV1 lg :: rest =>
    match pass1 (insert_claim_event db (convertV1 lg) rid 1) rid wt rest with
    | Except.error e => Except.error e
    | Except.ok (d, w, ops) =>
      Except.ok (d, w, Op.insertRow ("claim_events") (hash_log (convertV1 lg) rid) :: ops)
  | Pass1Log.claimV2 lg :: rest =>
    match pass1 (insert_claim_event db lg rid 2) rid wt rest with
    | Except.error e => Except.error e
    | Except.ok (d, w, ops) =>
      Except.ok (d, w, Op.insertRow ("claim_events") (hash_log lg rid) :: ops)
  | Pass1Log.newWrappedToken lg :: rest =>
    match pass1 (insert_new_wrapped_token_event db lg rid) rid
        (wt ++ [lg.inner.wrappedTokenAddress]) rest with
    | Except.error e => Except.error e
    | Except.ok (d, w, ops) =>
      Except.ok (d, w, Op.insertRow ("new_wrapped_token_events") (hash_log lg rid) :: ops)
  | Pass1Log.ignored :: rest => pass1 db rid wt rest
  | Pass1Log.unknown txh :: _ =>
    Except.error ("Log could not be decoded: " ++ txh)

/-- A transfer-insert loop that propagates decode failures with `?`
(the pass-2 mint/burn loops and the pass-3 bridge-out loop). -/
def insertTransfersStrict (ins : Database → RLog Transfer → Nat → Database)
    (table : String) (db : Database) (rid : Nat) :
    List (Except String (RLog Transfer)) → Except String (Database × List Op)
  | [] => Except.ok (db, [])
  | Except.error e :: _ => Except.error e
  | Except.ok lg :: rest =>
    match insertTransfersStrict ins table (ins db lg rid) rid rest with
    | Except.error e => Except.error e
    | Except.ok (d, ops) => Except.ok (d, Op.insertRow table (hash_log lg rid) :: ops)

/-- Pass 2: wrapped-token mints and burns, run only when the in-memory
set is non-empty. Both `get_logs` queries are issued first (filtering on
the current wrapped-token list and the zero-address topic), then the two
insert loops run; decode failures propagate. -/
def pass2 (db : Database) (rid : Nat) (wt : List Address)
    (mints burns : List (Except String (RLog Transfer)))
    (start_block end_block : Nat) : Except String (Database × List Op) :=
  if wt.length > 0 then
    match insertTransfersStrict insert_wrapped_transfer_event
        ("wrapped_transfer_events") db rid mints with
    | Except.error e => Except.error e
    | Except.ok (dbA, opsA) =>
      match insertTransfersStrict insert_wrapped_transfer_event
          ("wrapped_transfer_events") dbA rid burns with
      | Except.error e => Except.error e
      | Except.ok (dbB, opsB) =>
        Except.ok (dbB,
          [Op.getLogs start_block end_block (AddrFilter.many wt)
             (some transfer_sig) (some (to_topic zero_address)) none,
           Op.getLogs start_block end_block (AddrFilter.many wt)
             (some transfer_sig) none (some (to_topic zero_address))]
          ++ opsA ++ opsB)
  else Except.ok (db, [])

/-- Pass 3, bridge-in loop: decode failures are logged
(`println` of the error) and the event skipped; never fails. -/
def pass3in (db : Database) (rid : Nat) :
    List (Except String (RLog Transfer)) → Database × List Op
  | [] => (db, [])
  | Except.error e :: rest =>
    let r := pass3in db rid rest
    (r.1, Op.logError ("Error decoding log: " ++ e) :: r.2)
  | Except.ok lg :: rest =>
    let r := pass3in (insert_bridge_transfer_event db lg rid) rid rest
    (r.1, Op.insertRow ("bridge_transfer_events") (hash_log lg rid) :: r.2)

/-- One iteration of the `Indexer::index` loop. Returns the successor
state and the trace of externally visible actions, or the error that
aborts the worker. The three branches are: shutdown flag observed
(`break`), caught up (`sleep`, refresh head, `continue`), and the scan of
one window. -/
def indexStep (env : ChainEnv) (st : IndexerState) :
    Except String (IndexerState × List Op) :=
  if st.running = false then Except.ok (st, [])
  else if st.latest_block ≤ st.last_processed_block then
    Except.ok ({ st with latest_block := env.blockNumber }, [])
  else
    let start_block := st.last_processed_block + 1
    let end_block := min (start_block + get_block_increment st.rollup_id) st.latest_block
    match pass1 st.database st.rollup_id st.wrapped_tokens
        (env.bridgeLogs start_block end_block) with
    | Except.error e => Except.error e
    | Except.ok (db1, wt1, ops1) =>
      match pass2 db1 st.rollup_id wt1 (env.mintLogs start_block end_block wt1)
          (env.burnLogs start_block end_block wt1) start_block end_block with
      | Except.error e => Except.error e
      | Except.ok (db2, ops2) =>
        match insertTransfersStrict insert_bridge_transfer_event
            ("bridge_transfer_events") db2 st.rollup_id
            (env.outLogs start_block end_block) with
        | Except.error e => Except.error e
        | Except.ok (db3, ops3) =>
          let p4 := pass3in db3 st.rollup_id (env.inLogs start_block end_block)
          let db5 := synced_till_block p4.1 st.rollup_id end_block
          let st' : IndexerState :=
            { st with
              database := db5
              wrapped_tokens := wt1
              last_processed_block := end_block
              latest_block := env.blockNumber }
          let ops : List Op :=
            Op.getLogs start_block end_block (AddrFilter.single st.bridge_address)
                none none none
              :: (ops1 ++ ops2
                ++ [Op.getLogs start_block end_block AddrFilter.any
                      (some transfer_sig) (some (to_topic st.bridge_address)) none,
                    Op.getLogs start_block end_block AddrFilter.any
                      (some transfer_sig) none (some (to_topic st.bridge_address))]
                ++ ops3 ++ p4.2
                ++ [Op.setCheckpoint st.rollup_id end_block])
          Except.ok (st', ops)

/-- The wrapped-token addresses contributed by the `NewWrappedToken`
events of a pass-1 log list, in order. -/
def newWrappedAddrs (logs : List Pass1Log) : List Address :=
  logs.filterMap (fun l =>
    match l with
    | Pass1Log.newWrappedToken lg => some lg.inner.wrappedTokenAddress
    | _ => none)

/-- Recogniser for checkpoint-write trace entries. -/
def isSetCheckpoint : Op → Bool
  | Op.setCheckpoint _ _ => true
  | _ => false

/-! ## Store-insert events, for the idempotence property -/

/-- One persisted event, tagged by the insert operation that stores it. -/
inductive StoreInsert where
  | bridge (lg : RLog BridgeEvent)
  | claim (lg : RLog ClaimEvent) (version : Nat)
  | wrappedTok (lg : RLog NewWrappedToken)
  | wrappedTransfer (lg : RLog Transfer)
  | bridgeTransfer (lg : RLog Transfer)
deriving DecidableEq

/-- Dispatch one event to its `insert_*_event` operation. -/
def applyInsert (db : Database) (rid : Nat) : StoreInsert → Database
  | StoreInsert.bridge lg => insert_bridge_event db lg rid
  | StoreInsert.claim lg v => insert_claim_event db lg rid v
  | StoreInsert.wrappedTok lg => insert_new_wrapped_token_event db lg rid
  | StoreInsert.wrappedTransfer lg => insert_wrapped_transfer_event db lg rid
  | StoreInsert.bridgeTransfer lg => insert_bridge_transfer_event db lg rid

/-- Persist, in order, every event decoded from a block range. -/
def runInserts (db : Database) (rid : Nat) (es : List StoreInsert) : Database :=
  es.foldl (fun d e => applyInsert d rid e) db

/-- Whether the content id of an event is already present in the table
that its insert targets. -/
def presentIn (db : Database) (rid : Nat) : StoreInsert → Bool
  | StoreInsert.bridge lg =>
    db.bridge_events.any (fun r => r.id == hash_log lg rid)
  | StoreInsert.claim lg _ =>
    db.claim_events.any (fun r => r.id == hash_log lg rid)
  | StoreInsert.wrappedTok lg =>
    db.new_wrapped_token_events.any (fun r => r.id == hash_log lg rid)
  | StoreInsert.wrappedTransfer lg =>
    db.wrapped_transfer_events.any (fun r => r.id == hash_log lg rid)
  | StoreInsert.bridgeTransfer lg =>
    db.bridge_transfer_events.any (fun r => r.id == hash_log lg rid)

/-! ## Concrete fixtures used by witnesses and counterexamples -/

/-- A sample decoded `BridgeEvent` log. -/
def fixBridgeLog : RLog BridgeEvent :=
  { address := "0xbridgeaddr"
    inner :=
      { leafType := 0
        originNetwork := 0
        originAddress := "0xorigintoken"
        destinationNetwork := 1
        destinationAddress := "0xdest"
        amount := 1000
        metadata := "0x"
        depositCount := 7 }
    transaction_hash := "0xaaa1"
    block_hash := "0xbbb1"
    block_number := 100
    transaction_index := 0
    log_index := 3 }

/-- A sample decoded `Transfer` log (a mint from the zero address). -/
def fixTransferLog : RLog Transfer :=
  { address := "0xwrapped01"
    inner :=
      { from_address := "0x0000000000000000000000000000000000000000"
        to_address := "0xalice"
        value := 10 }
    transaction_hash := "0xaaa2"
    block_hash := "0xbbb2"
    block_number := 101
    transaction_index := 1
    log_index := 4 }

/-- A sample decoded `NewWrappedToken` log. -/
def fixWrappedLog : RLog NewWrappedToken :=
  { address := "0xbridgeaddr"
    inner :=
      { originNetwork := 0
        originTokenAddress := "0xorigintoken"
        wrappedTokenAddress := "0xwrapped01"
        metadata := "0x" }
    transaction_hash := "0xaaa3"
    block_hash := "0xbbb3"
    block_number := 102
    transaction_index := 0
    log_index := 2 }

/-! ## Helper lemmas about the store operations -/

/-- `INSERT OR IGNORE` leaves the table unchanged when the key is
already present. -/
theorem insertOrIgnore_of_mem {α : Type} (key : α → String) (rows : List α)
    (r : α) (h : rows.any (fun x => key x == key r) = true) :
    insertOrIgnore key rows r = rows := by
  simp [insertOrIgnore, h]

/-- After `INSERT OR IGNORE`, the inserted key is present. -/
theorem any_insertOrIgnore_self {α : Type} (key : α → String) (rows : List α)
    (r : α) : (insertOrIgnore key rows r).any (fun x => key x == key r) = true := by
  by_cases h : rows.any (fun x => key x == key r) = true
  · simp [insertOrIgnore, h]
  · simp only [insertOrIgnore, h, if_false, Bool.if_false_left]
    simp

/-- `INSERT OR IGNORE` preserves any previously satisfied row predicate. -/
theorem any_insertOrIgnore_of_any {α : Type} (key : α → String) (p : α → Bool)
    (rows : List α) (r : α) (h : rows.any p = true) :
    (insertOrIgnore key rows r).any p = true := by
  unfold insertOrIgnore
  split
  · exact h
  · simp [List.any_append, h]

/-! ## C4 — content id is a function of exactly (tx_hash, log_index, rollup_id) -/

/-- C4: `hash_log` is the lowercase-hex SHA-256 of the concatenated
transaction hash, log index and rollup id; it is deterministic in that
triple, and no other field of the log (nor the decoded payload, of any
type) influences it: two logs agreeing on transaction hash and log index
hash identically for the same rollup id. -/
theorem hash_log_depends_only_on_triple :
    ∀ (T₁ T₂ : Type) (l1 : RLog T₁) (l2 : RLog T₂) (rollup_id : Nat),
      l1.transaction_hash = l2.transaction_hash →
      l1.log_index = l2.log_index →
      hash_log l1 rollup_id = hash_log l2 rollup_id ∧
      hash_log l1 rollup_id
        = sha256hex (l1.transaction_hash ++ toString l1.log_index
            ++ toString rollup_id) := by
  intro T₁ T₂ l1 l2 rollup_id h1 h2
  constructor
  · simp [hash_log, h1, h2]
  · rfl

/-- Witness for C4: a `BridgeEvent` log and a `Transfer` log that share
transaction hash and log index receive the same content id even though
every other field differs. -/
theorem hash_log_depends_only_on_triple_witness :
    (({ fixBridgeLog with transaction_hash := "0xsame", log_index := 9 } :
        RLog BridgeEvent).transaction_hash
      = ({ fixTransferLog with transaction_hash := "0xsame", log_index := 9 } :
        RLog Transfer).transaction_hash) ∧
    hash_log ({ fixBridgeLog with transaction_hash := "0xsame", log_index := 9 }) 5
      = hash_log ({ fixTransferLog with transaction_hash := "0xsame", log_index := 9 }) 5 := by
  refine ⟨rfl, ?_⟩
  exact (hash_log_depends_only_on_triple BridgeEvent Transfer
    ({ fixBridgeLog with transaction_hash := "0xsame", log_index := 9 })
    ({ fixTransferLog with transaction_hash := "0xsame", log_index := 9 })
    5 rfl rfl).1

/-! ## C10 — `distance_head` is an unguarded u64 subtraction -/

/-- C10: `distance_head` computes `head - last_indexed_block` as an
unguarded `u64` subtraction. When the checkpoint is at most the head it
returns the true sync lag; when the stored checkpoint exceeds the head it
underflows (wraps modulo `2 ^ 64`), returning a value strictly larger
than the head itself rather than a distance or an error. -/
theorem distance_head_unguarded_sub :
    ∀ (db : Database) (rollup_id latest_block : Nat),
      latest_block < 2 ^ 64 → last_indexed_block db rollup_id < 2 ^ 64 →
      (last_indexed_block db rollup_id ≤ latest_block →
        distance_head db rollup_id latest_block
          = latest_block - last_indexed_block db rollup_id) ∧
      (latest_block < last_indexed_block db rollup_id →
        distance_head db rollup_id latest_block
            = 2 ^ 64 - (last_indexed_block db rollup_id - latest_block) ∧
        latest_block < distance_head db rollup_id latest_block) := by
  intro db rid head hh hl
  constructor
  · intro hle
    have hv : head + 2 ^ 64 - last_indexed_block db rid
        = (head - last_indexed_block db rid) + 2 ^ 64 := by omega
    rw [distance_head, u64_wrapping_sub, hv, Nat.add_mod_right]
    exact Nat.mod_eq_of_lt (by omega)
  · intro hlt
    have hv : head + 2 ^ 64 - last_indexed_block db rid
        = 2 ^ 64 - (last_indexed_block db rid - head) := by omega
    have hsmall : 2 ^ 64 - (last_indexed_block db rid - head) < 2 ^ 64 := by omega
    rw [distance_head, u64_wrapping_sub, hv, Nat.mod_eq_of_lt hsmall]
    exact ⟨rfl, by omega⟩

/-- A store whose rollup 1 checkpoint is 100, for the C10 witness. -/
def c10Db : Database :=
  { emptyDatabase with rollups :=
      [{ rollup_id := 1, network_name := "zkevm-a"
         latest_bridge_synced_block := some 100 }] }

/-- Witness for C10: with checkpoint 100, a head of 250 yields the true
lag 150, while a head of 40 underflows to `2 ^ 64 - 60`, far above the
head. -/
theorem distance_head_unguarded_sub_witness :
    distance_head c10Db 1 250 = 150 ∧
    distance_head c10Db 1 40 = 2 ^ 64 - 60 ∧ 40 < distance_head c10Db 1 40 := by
  have h250 := distance_head_unguarded_sub c10Db 1 250 (by decide) (by decide)
  have h40 := distance_head_unguarded_sub c10Db 1 40 (by decide) (by decide)
  have hlast : last_indexed_block c10Db 1 = 100 := by decide
  refine ⟨?_, ?_, ?_⟩
  · rw [h250.1 (by decide), hlast]
  · rw [(h40.2 (by decide)).1, hlast]
  · exact (h40.2 (by decide)).2

/-! ## C6 — the `/query` keyword screen -/

/-- C6: whenever the lowercased query contains one of the prohibited
substrings, `query_handler` answers HTTP 400 with the store unchanged,
and the result does not depend on the store-execution function at all
(nothing is executed against the store). -/
theorem query_handler_rejects_mutating :
    ∀ (ρ : Type) (exec exec' : Database → String → ρ × Database)
      (q : String) (db : Database),
      prohibited.any (fun kw => containsSubstr (toLowerStr q) kw) = true →
      query_handler exec q db
          = (Except.error (400, "Mutating queries are not allowed"), db) ∧
      query_handler exec q db = query_handler exec' q db := by
  intro ρ exec exec' q db h
  constructor
  · simp [query_handler, h]
  · simp [query_handler, h]

/-- Witness for C6: `GET /query?q=DROP TABLE rollups` is rejected with
HTTP 400 and the (empty) store is returned untouched. -/
theorem query_handler_rejects_mutating_witness :
    query_handler (fun db _ => ((0 : Nat), db)) ("DROP TABLE rollups") emptyDatabase
      = (Except.error (400, "Mutating queries are not allowed"), emptyDatabase) := by
  exact (query_handler_rejects_mutating Nat (fun db _ => ((0 : Nat), db))
    (fun db _ => ((1 : Nat), db)) ("DROP TABLE rollups") emptyDatabase (by decide)).1

/-! ## C1 — `Indexer::new` discards the fetched wrapped-token set -/

/-- A store holding one `NewWrappedToken` row for rollup 7. -/
def c1Db : Database := insert_new_wrapped_token_event emptyDatabase fixWrappedLog 7

/-- C1 (failing input): the store knows wrapped token `0xwrapped01` for
rollup 7 and `fetch_wrapped_tokens` returns it, yet the `Indexer` built
by `Indexer::new` starts with an empty in-memory wrapped-token set: the
constructor fetches the persisted set but then initialises the field
with `vec![]`, discarding it. -/
theorem indexer_new_discards_fetched_tokens :
    fetch_wrapped_tokens c1Db 7 = ["0xwrapped01"] ∧
    (Indexer.new ("0xbridgeaddr") 7 c1Db).wrapped_tokens = [] ∧
    (Indexer.new ("0xbridgeaddr") 7 c1Db).wrapped_tokens ≠ fetch_wrapped_tokens c1Db 7 := by
  refine ⟨rfl, rfl, ?_⟩
  intro h
  simp [Indexer.new, c1Db, insert_new_wrapped_token_event, insertOrIgnore,
    fetch_wrapped_tokens, emptyDatabase] at h

/-! ## C7 — `fetch_wrapped_tokens` does not deduplicate -/

/-- A `new_wrapped_token_events` row naming wrapped token `0xwrapped01`
for rollup 1. -/
def c7RowA : NewWrappedTokenRow :=
  { id := "id-a"
    rollup_id := "1"
    transaction_hash := "0xt1"
    block_hash := "0xb1"
    block_number := "10"
    transaction_index := "0"
    log_index := "0"
    originNetwork := "0"
    originTokenAddress := "0xorigintoken"
    wrappedTokenAddress := "0xwrapped01"
    metadata := "0x" }

/-- A second row (distinct content id, different transaction) naming the
same wrapped token for the same rollup. -/
def c7RowB : NewWrappedTokenRow :=
  { c7RowA with id := "id-b", transaction_hash := "0xt2" }

/-- A store in which two distinct rows mention the same wrapped token. -/
def c7Db : Database :=
  { emptyDatabase with new_wrapped_token_events := [c7RowA, c7RowB] }

/-- Counterexample for C7: with two stored rows mentioning
`0xwrapped01`, `fetch_wrapped_tokens` (whose SELECT has no DISTINCT)
returns the address twice, so the claim that every address appears at
most once is false. -/
theorem fetch_wrapped_tokens_not_distinct :
    fetch_wrapped_tokens c7Db 1 = ["0xwrapped01", "0xwrapped01"] ∧
    ¬ (fetch_wrapped_tokens c7Db 1).count ("0xwrapped01") ≤ 1 := by
  constructor
  · rfl
  · decide

/-- C7 (amended): `fetch_wrapped_tokens` returns one entry per stored
`new_wrapped_token_events` row of the rollup, in row order; an address
occurs in the result exactly as many times as rows mention it (no
deduplication). -/
theorem fetch_wrapped_tokens_count_eq_rows :
    ∀ (db : Database) (rollup_id : Nat) (a : Address),
      (fetch_wrapped_tokens db rollup_id).count a
        = (db.new_wrapped_token_events.filter
            (fun r => r.rollup_id == toString rollup_id
              && r.wrappedTokenAddress == a)).length := by
  intro db rid a
  unfold fetch_wrapped_tokens
  induction db.new_wrapped_token_events with
  | nil => rfl
  | cons r rest ih =>
    by_cases h1 : r.rollup_id == toString rid
    · by_cases h2 : r.wrappedTokenAddress == a
      · simp [List.filter, h1, h2, List.count_cons, ih]
      · simp [List.filter, h1, h2, List.count_cons, ih]
    · simp [List.filter, h1, ih]

/-! ## C3 — idempotent inserts and replay -/

/-- Each insert establishes presence of its content id. -/
theorem presentIn_applyInsert_self :
    ∀ (db : Database) (rid : Nat) (e : StoreInsert),
      presentIn (applyInsert db rid e) rid e = true := by
  intro db rid e
  cases e <;>
    simp only [applyInsert, presentIn, insert_bridge_event, insert_claim_event,
      insert_new_wrapped_token_event, insert_wrapped_transfer_event,
      insert_bridge_transfer_event] <;>
    exact any_insertOrIgnore_self _ _ _

/-- Inserting any further event preserves presence. -/
theorem presentIn_applyInsert_mono :
    ∀ (db : Database) (rid : Nat) (e e' : StoreInsert),
      presentIn db rid e = true →
      presentIn (applyInsert db rid e') rid e = true := by
  intro db rid e e' h
  cases e' <;> cases e <;>
    simp only [applyInsert, presentIn, insert_bridge_event, insert_claim_event,
      insert_new_wrapped_token_event, insert_wrapped_transfer_event,
      insert_bridge_transfer_event] at h ⊢ <;>
    first
      | exact h
      | exact any_insertOrIgnore_of_any _ _ _ _ h

/-- Presence survives an arbitrary run of further inserts. -/
theorem presentIn_runInserts_mono :
    ∀ (es : List StoreInsert) (db : Database) (rid : Nat) (e : StoreInsert),
      presentIn db rid e = true →
      presentIn (runInserts db rid es) rid e = true := by
  intro es
  induction es with
  | nil => intro db rid e h; exact h
  | cons e' rest ih =>
    intro db rid e h
    exact ih (applyInsert db rid e') rid e (presentIn_applyInsert_mono db rid e e' h)

/-- After running a list of inserts, every event of the list is present. -/
theorem presentIn_runInserts_of_mem :
    ∀ (es : List StoreInsert) (db : Database) (rid : Nat) (e : StoreInsert),
      e ∈ es → presentIn (runInserts db rid es) rid e = true := by
  intro es
  induction es with
  | nil => intro db rid e h; cases h
  | cons e' rest ih =>
    intro db rid e h
    cases h with
    | head =>
      exact presentIn_runInserts_mono rest (applyInsert db rid e') rid e'
        (presentIn_applyInsert_self db rid e')
    | tail _ hmem => exact ih (applyInsert db rid e') rid e hmem

/-- An insert whose content id is already present is a no-op. -/
theorem applyInsert_of_present :
    ∀ (db : Database) (rid : Nat) (e : StoreInsert),
      presentIn db rid e = true → applyInsert db rid e = db := by
  intro db rid e h
  cases e <;>
    simp only [applyInsert, presentIn, insert_bridge_event, insert_claim_event,
      insert_new_wrapped_token_event, insert_wrapped_transfer_event,
      insert_bridge_transfer_event, insertOrIgnore] at h ⊢ <;>
    split <;>
    first
      | rfl
      | (rename_i hcond; exact absurd h hcond)

/-- A run of inserts that are all already present is a no-op. -/
theorem runInserts_of_present :
    ∀ (es : List StoreInsert) (db : Database) (rid : Nat),
      (∀ e ∈ es, presentIn db rid e = true) → runInserts db rid es = db := by
  intro es
  induction es with
  | nil => intro db rid _; rfl
  | cons e rest ih =>
    intro db rid h
    have h1 : applyInsert db rid e = db :=
      applyInsert_of_present db rid e (h e (List.mem_cons_self e rest))
    show runInserts (applyInsert db rid e) rid rest = db
    rw [h1]
    exact ih db rid (fun e' he' => h e' (List.mem_cons_of_mem e he'))

/-- C3: every `insert_*_event` is idempotent on `content_id` — inserting
a record whose content id is already in its table leaves the whole store
unchanged (the duplicate is silently ignored; the operation still
succeeds, being total) — and consequently replaying the same block
range's events a second time produces exactly the row set of a single
run. -/
theorem insert_events_idempotent :
    (∀ (db : Database) (lg : RLog BridgeEvent) (rid : Nat),
      db.bridge_events.any (fun r => r.id == hash_log lg rid) = true →
      insert_bridge_event db lg rid = db) ∧
    (∀ (db : Database) (lg : RLog ClaimEvent) (rid version : Nat),
      db.claim_events.any (fun r => r.id == hash_log lg rid) = true →
      insert_claim_event db lg rid version = db) ∧
    (∀ (db : Database) (lg : RLog NewWrappedToken) (rid : Nat),
      db.new_wrapped_token_events.any (fun r => r.id == hash_log lg rid) = true →
      insert_new_wrapped_token_event db lg rid = db) ∧
    (∀ (db : Database) (lg : RLog Transfer) (rid : Nat),
      db.wrapped_transfer_events.any (fun r => r.id == hash_log lg rid) = true →
      insert_wrapped_transfer_event db lg rid = db) ∧
    (∀ (db : Database) (lg : RLog Transfer) (rid : Nat),
      db.bridge_transfer_events.any (fun r => r.id == hash_log lg rid) = true →
      insert_bridge_transfer_event db lg rid = db) ∧
    (∀ (db : Database) (rid : Nat) (es : List StoreInsert),
      runInserts (runInserts db rid es) rid es = runInserts db rid es) := by
  refine ⟨?_, ?_, ?_, ?_, ?_, ?_⟩
  · intro db lg rid h
    exact applyInsert_of_present db rid (StoreInsert.bridge lg) h
  · intro db lg rid v h
    exact applyInsert_of_present db rid (StoreInsert.claim lg v) h
  · intro db lg rid h
    exact applyInsert_of_present db rid (StoreInsert.wrappedTok lg) h
  · intro db lg rid h
    exact applyInsert_of_present db rid (StoreInsert.wrappedTransfer lg) h
  · intro db lg rid h
    exact applyInsert_of_present db rid (StoreInsert.bridgeTransfer lg) h
  · intro db rid es
    exact runInserts_of_present es (runInserts db rid es) rid
      (fun e he => presentIn_runInserts_of_mem es db rid e he)

/-- A store already holding the sample bridge event for rollup 3. -/
def c3Db : Database := insert_bridge_event emptyDatabase fixBridgeLog 3

/-- Witness for C3: re-inserting the sample bridge event into a store
that already holds it leaves the store unchanged, and replaying a
two-event window twice equals a single run. -/
theorem insert_events_idempotent_witness :
    insert_bridge_event c3Db fixBridgeLog 3 = c3Db ∧
    runInserts (runInserts emptyDatabase 3
        [StoreInsert.bridge fixBridgeLog, StoreInsert.wrappedTok fixWrappedLog]) 3
        [StoreInsert.bridge fixBridgeLog, StoreInsert.wrappedTok fixWrappedLog]
      = runInserts emptyDatabase 3
        [StoreInsert.bridge fixBridgeLog, StoreInsert.wrappedTok fixWrappedLog] := by
  constructor
  · refine insert_events_idempotent.1 c3Db fixBridgeLog 3 ?_
    simp [c3Db, insert_bridge_event, insertOrIgnore, emptyDatabase]
  · exact insert_events_idempotent.2.2.2.2.2 emptyDatabase 3
      [StoreInsert.bridge fixBridgeLog, StoreInsert.wrappedTok fixWrappedLog]

/-! ## Helper lemmas about the window passes -/

theorem insert_bridge_event_rollups (db : Database) (lg : RLog BridgeEvent)
    (rid : Nat) : (insert_bridge_event db lg rid).rollups = db.rollups := rfl

theorem insert_claim_event_rollups (db : Database) (lg : RLog ClaimEvent)
    (rid v : Nat) : (insert_claim_event db lg rid v).rollups = db.rollups := rfl

theorem insert_new_wrapped_token_event_rollups (db : Database)
    (lg : RLog NewWrappedToken) (rid : Nat) :
    (insert_new_wrapped_token_event db lg rid).rollups = db.rollups := rfl

theorem insert_wrapped_transfer_event_rollups (db : Database) (lg : RLog Transfer)
    (rid : Nat) : (insert_wrapped_transfer_event db lg rid).rollups = db.rollups := rfl

theorem insert_bridge_transfer_event_rollups (db : Database) (lg : RLog Transfer)
    (rid : Nat) : (insert_bridge_transfer_event db lg rid).rollups = db.rollups := rfl

/-- On success, pass 1 appends exactly the freshly decoded wrapped-token
addresses to the in-memory set, leaves the `rollups` table untouched, and
emits no checkpoint write. -/
theorem pass1_ok_spec :
    ∀ (logs : List Pass1Log) (db : Database) (rid : Nat) (wt : List Address)
      (d : Database) (w : List Address) (ops : List Op),
      pass1 db rid wt logs = Except.ok (d, w, ops) →
      w = wt ++ newWrappedAddrs logs ∧ d.rollups = db.rollups ∧
        ∀ o ∈ ops, isSetCheckpoint o = false := by
  intro logs
  induction logs with
  | nil =>
    intro db rid wt d w ops h
    simp only [pass1, Except.ok.injEq, Prod.mk.injEq] at h
    obtain ⟨h1, h2, h3⟩ := h
    subst h1; subst h2; subst h3
    simp [newWrappedAddrs]
  | cons l rest ih =>
    intro db rid wt d w ops h
    cases l with
    | bridgeEvent lg =>
      simp only [pass1] at h
      cases hrec : pass1 (insert_bridge_event db lg rid) rid wt rest with
      | error e => rw [hrec] at h; simp at h
      | ok t =>
        obtain ⟨d', w', ops'⟩ := t
        rw [hrec] at h
        simp only [Except.ok.injEq, Prod.mk.injEq] at h
        obtain ⟨h1, h2, h3⟩ := h
        subst h1; subst h2; subst h3
        obtain ⟨hw, hr, hops⟩ := ih _ _ _ _ _ _ hrec
        refine ⟨by simpa [newWrappedAddrs] using hw,
          by rw [hr, insert_bridge_event_rollups], ?_⟩
        intro o ho
        cases ho with
        | head => rfl
        | tail _ hmem => exact hops o hmem
    | claimV1 lg =>
      simp only [pass1] at h
      cases hrec : pass1 (insert_claim_event db (convertV1 lg) rid 1) rid wt rest with
      | error e => rw [hrec] at h; simp at h
      | ok t =>
        obtain ⟨d', w', ops'⟩ := t
        rw [hrec] at h
        simp only [Except.ok.injEq, Prod.mk.injEq] at h
        obtain ⟨h1, h2, h3⟩ := h
        subst h1; subst h2; subst h3
        obtain ⟨hw, hr, hops⟩ := ih _ _ _ _ _ _ hrec
        refine ⟨by simpa [newWrappedAddrs] using hw,
          by rw [hr, insert_claim_event_rollups], ?_⟩
        intro o ho
        cases ho with
        | head => rfl
        | tail _ hmem => exact hops o hmem
    | claimV2 lg =>
      simp only [pass1] at h
      cases hrec : pass1 (insert_claim_event db lg rid 2) rid wt rest with
      | error e => rw [hrec] at h; simp at h
      | ok t =>
        obtain ⟨d', w', ops'⟩ := t
        rw [hrec] at h
        simp only [Except.ok.injEq, Prod.mk.injEq] at h
        obtain ⟨h1, h2, h3⟩ := h
        subst h1; subst h2; subst h3
        obtain ⟨hw, hr, hops⟩ := ih _ _ _ _ _ _ hrec
        refine ⟨by simpa [newWrappedAddrs] using hw,
          by rw [hr, insert_claim_event_rollups], ?_⟩
        intro o ho
        cases ho with
        | head => rfl
        | tail _ hmem => exact hops o hmem
    | newWrappedToken lg =>
      simp only [pass1] at h
      cases hrec : pass1 (insert_new_wrapped_token_event db lg rid) rid
          (wt ++ [lg.inner.wrappedTokenAddress]) rest with
      | error e => rw [hrec] at h; simp at h
      | ok t =>
        obtain ⟨d', w', ops'⟩ := t
        rw [hrec] at h
        simp only [Except.ok.injEq, Prod.mk.injEq] at h
        obtain ⟨h1, h2, h3⟩ := h
        subst h1; subst h2; subst h3
        obtain ⟨hw, hr, hops⟩ := ih _ _ _ _ _ _ hrec
        refine ⟨by simp [newWrappedAddrs, hw], ?_, ?_⟩
        · rw [hr, insert_new_wrapped_token_event_rollups]
        · intro o ho
          cases ho with
          | head => rfl
          | tail _ hmem => exact hops o hmem
    | ignored =>
      simp only [pass1] at h
      obtain ⟨hw, hr, hops⟩ := ih _ _ _ _ _ _ h
      exact ⟨by simpa [newWrappedAddrs] using hw, hr, hops⟩
    | unknown txh =>
      simp only [pass1] at h
      cases h

/-- On success, a strict transfer-insert loop leaves `rollups` untouched
(whenever the underlying insert does) and emits no checkpoint write. -/
theorem insertTransfersStrict_ok_spec :
    ∀ (logs : List (Except String (RLog Transfer)))
      (ins : Database → RLog Transfer → Nat → Database) (table : String)
      (db : Database) (rid : Nat) (d : Database) (ops : List Op),
      (∀ (x : Database) (lg : RLog Transfer) (r : Nat), (ins x lg r).rollups = x.rollups) →
      insertTransfersStrict ins table db rid logs = Except.ok (d, ops) →
      d.rollups = db.rollups ∧ ∀ o ∈ ops, isSetCheckpoint o = false := by
  intro logs
  induction logs with
  | nil =>
    intro ins table db rid d ops hins h
    simp only [insertTransfersStrict, Except.ok.injEq, Prod.mk.injEq] at h
    obtain ⟨h1, h2⟩ := h
    subst h1; subst h2
    simp
  | cons l rest ih =>
    intro ins table db rid d ops hins h
    cases l with
    | error e => simp only [insertTransfersStrict] at h; cases h
    | ok lg =>
      simp only [insertTransfersStrict] at h
      cases hrec : insertTransfersStrict ins table (ins db lg rid) rid rest with
      | error e => rw [hrec] at h; simp at h
      | ok t =>
        obtain ⟨d', ops'⟩ := t
        rw [hrec] at h
        simp only [Except.ok.injEq, Prod.mk.injEq] at h
        obtain ⟨h1, h2⟩ := h
        subst h1; subst h2
        obtain ⟨hr, hops⟩ := ih ins table (ins db lg rid) rid _ _ hins hrec
        refine ⟨by rw [hr, hins], ?_⟩
        intro o ho
        cases ho with
        | head => rfl
        | tail _ hmem => exact hops o hmem

/-- `pass3in` never fails: its resulting store is the fold of
`insert_bridge_transfer_event` over exactly the decodable logs, the
failures being skipped. -/
theorem pass3in_fst :
    ∀ (logs : List (Except String (RLog Transfer))) (db : Database) (rid : Nat),
      (pass3in db rid logs).1
        = logs.foldl (fun d l =>
            match l with
            | Except.ok lg => insert_bridge_transfer_event d lg rid
            | Except.error _ => d) db := by
  intro logs
  induction logs with
  | nil => intro db rid; rfl
  | cons l rest ih =>
    intro db rid
    cases l with
    | error e => simp [pass3in, List.foldl_cons, ih]
    | ok lg => simp [pass3in, List.foldl_cons, ih]

/-- `pass3in` leaves the `rollups` table untouched. -/
theorem pass3in_rollups :
    ∀ (logs : List (Except String (RLog Transfer))) (db : Database) (rid : Nat),
      (pass3in db rid logs).1.rollups = db.rollups := by
  intro logs
  induction logs with
  | nil => intro db rid; rfl
  | cons l rest ih =>
    intro db rid
    cases l with
    | error e => simpa [pass3in] using ih db rid
    | ok lg =>
      have h := ih (insert_bridge_transfer_event db lg rid) rid
      rw [insert_bridge_transfer_event_rollups] at h
      simpa [pass3in] using h

/-- `pass3in` emits no checkpoint write. -/
theorem pass3in_no_checkpoint :
    ∀ (logs : List (Except String (RLog Transfer))) (db : Database) (rid : Nat),
      ∀ o ∈ (pass3in db rid logs).2, isSetCheckpoint o = false := by
  intro logs
  induction logs with
  | nil => intro db rid o ho; cases ho
  | cons l rest ih =>
    intro db rid o ho
    cases l with
    | error e =>
      simp only [pass3in] at ho
      cases ho with
      | head => rfl
      | tail _ hmem => exact ih db rid o hmem
    | ok lg =>
      simp only [pass3in] at ho
      cases ho with
      | head => rfl
      | tail _ hmem => exact ih (insert_bridge_transfer_event db lg rid) rid o hmem

/-- `pass3in` logs one error message per undecodable log. -/
theorem pass3in_logs_error :
    ∀ (logs : List (Except String (RLog Transfer))) (db : Database) (rid : Nat)
      (e : String), Except.error e ∈ logs →
      Op.logError ("Error decoding log: " ++ e) ∈ (pass3in db rid logs).2 := by
  intro logs
  induction logs with
  | nil => intro db rid e he; cases he
  | cons l rest ih =>
    intro db rid e he
    cases l with
    | error e' =>
      cases he with
      | head => simp only [pass3in]; exact List.mem_cons_self _ _
      | tail _ hmem =>
        simp only [pass3in]
        exact List.mem_cons_of_mem _ (ih db rid e hmem)
    | ok lg =>
      cases he with
      | tail _ hmem =>
        simp only [pass3in]
        exact List.mem_cons_of_mem _ (ih (insert_bridge_transfer_event db lg rid) rid e hmem)

/-- On success, pass 2 leaves `rollups` untouched and emits no
checkpoint write; when the wrapped-token set is non-empty, its trace
contains the mint and burn `get_logs` queries filtered on that set. -/
theorem pass2_ok_spec :
    ∀ (db : Database) (rid : Nat) (wt : List Address)
      (mints burns : List (Except String (RLog Transfer)))
      (s e : Nat) (d : Database) (ops : List Op),
      pass2 db rid wt mints burns s e = Except.ok (d, ops) →
      d.rollups = db.rollups ∧ (∀ o ∈ ops, isSetCheckpoint o = false) ∧
      (wt.length > 0 →
        Op.getLogs s e (AddrFilter.many wt) (some transfer_sig)
            (some (to_topic zero_address)) none ∈ ops ∧
        Op.getLogs s e (AddrFilter.many wt) (some transfer_sig)
            none (some (to_topic zero_address)) ∈ ops) := by
  intro db rid wt mints burns s e d ops h
  by_cases hwt : wt.length > 0
  · simp only [pass2, if_pos hwt] at h
    split at h
    · cases h
    · rename_i dA opsA hA
      split at h
      · cases h
      · rename_i dB opsB hB
        simp only [Except.ok.injEq, Prod.mk.injEq] at h
        obtain ⟨h1, h2⟩ := h
        subst h1; subst h2
        obtain ⟨hrA, hopsA⟩ := insertTransfersStrict_ok_spec mints _ _ db rid _ _
          insert_wrapped_transfer_event_rollups hA
        obtain ⟨hrB, hopsB⟩ := insertTransfersStrict_ok_spec burns _ _ dA rid _ _
          insert_wrapped_transfer_event_rollups hB
        refine ⟨by rw [hrB, hrA], ?_, ?_⟩
        · intro o ho
          simp only [List.cons_append, List.nil_append, List.mem_cons,
            List.mem_append] at ho
          rcases ho with h | h | h | h
          · subst h; rfl
          · subst h; rfl
          · exact hopsA o h
          · exact hopsB o h
        · intro _
          constructor
          · exact List.mem_cons_self _ _
          · exact List.mem_cons_of_mem _ (List.mem_cons_self _ _)
  · simp only [pass2, if_neg hwt, Except.ok.injEq, Prod.mk.injEq] at h
    obtain ⟨h1, h2⟩ := h
    subst h1; subst h2
    refine ⟨rfl, ?_, ?_⟩
    · intro o ho; cases ho
    · intro hcon; exact absurd hcon hwt

/-- `UPDATE rollups` commutes with row lookup: finding the rollup row
after `synced_till_block` returns the updated row when one exists. -/
theorem find_synced (l : List RollupRow) (rid : Nat) (b : Nat) :
    (l.map (fun r =>
        if r.rollup_id == rid then
          { r with latest_bridge_synced_block := some (b : Int) }
        else r)).find? (fun r => r.rollup_id == rid)
      = Option.map (fun r => { r with latest_bridge_synced_block := some (b : Int) })
          (l.find? (fun r => r.rollup_id == rid)) := by
  rw [List.find?_map]
  have hpf : ((fun r : RollupRow => r.rollup_id == rid) ∘ (fun r : RollupRow =>
      if r.rollup_id == rid then
        { r with latest_bridge_synced_block := some (b : Int) }
      else r)) = fun r : RollupRow => r.rollup_id == rid := by
    funext r
    by_cases hc : (r.rollup_id == rid) = true
    · simp [Function.comp, hc]
    · simp [Function.comp, hc]
  rw [hpf]
  cases hf : l.find? (fun r => r.rollup_id == rid) with
  | none => rfl
  | some r =>
    have hp := List.find?_some hf
    simp [Option.map, hp]

/-- Reading the checkpoint after `synced_till_block` yields the written
block (when the rollup has a row), or 0 both before and after (when the
row is missing and the UPDATE touched nothing). -/
theorem last_indexed_block_synced_till (db : Database) (rid : Nat) (b : Nat) :
    last_indexed_block (synced_till_block db rid b) rid = b ∨
    (last_indexed_block (synced_till_block db rid b) rid = 0 ∧
      last_indexed_block db rid = 0) := by
  unfold last_indexed_block synced_till_block
  simp only [find_synced]
  cases hf : db.rollups.find? (fun r => r.rollup_id == rid) with
  | none => right; simp
  | some r =>
    left
    simp only [Option.map]
    rw [if_neg (by omega)]
    omega

/-- Inversion of a successful scan iteration: the passes ran in order on
the window `[last+1, min(last+1+increment, head)]`, and the successor
state and trace are assembled from their results. -/
theorem indexStep_ok_inversion :
    ∀ (env : ChainEnv) (st : IndexerState) (st1 : IndexerState) (ops : List Op),
      st.running = true → st.last_processed_block < st.latest_block →
      indexStep env st = Except.ok (st1, ops) →
      ∃ (db1 : Database) (wt1 : List Address) (ops1 : List Op)
        (db2 : Database) (ops2 : List Op) (db3 : Database) (ops3 : List Op),
        pass1 st.database st.rollup_id st.wrapped_tokens
            (env.bridgeLogs (st.last_processed_block + 1)
              (min (st.last_processed_block + 1 + get_block_increment st.rollup_id)
                st.latest_block))
          = Except.ok (db1, wt1, ops1) ∧
        pass2 db1 st.rollup_id wt1
            (env.mintLogs (st.last_processed_block + 1)
              (min (st.last_processed_block + 1 + get_block_increment st.rollup_id)
                st.latest_block) wt1)
            (env.burnLogs (st.last_processed_block + 1)
              (min (st.last_processed_block + 1 + get_block_increment st.rollup_id)
                st.latest_block) wt1)
            (st.last_processed_block + 1)
            (min (st.last_processed_block + 1 + get_block_increment st.rollup_id)
              st.latest_block)
          = Except.ok (db2, ops2) ∧
        insertTransfersStrict insert_bridge_transfer_event ("bridge_transfer_events")
            db2 st.rollup_id
            (env.outLogs (st.last_processed_block + 1)
              (min (st.last_processed_block + 1 + get_block_increment st.rollup_id)
                st.latest_block))
          = Except.ok (db3, ops3) ∧
        st1 = { st with
                database := synced_till_block
                  (pass3in db3 st.rollup_id
                    (env.inLogs (st.last_processed_block + 1)
                      (min (st.last_processed_block + 1
                          + get_block_increment st.rollup_id) st.latest_block))).1
                  st.rollup_id
                  (min (st.last_processed_block + 1 + get_block_increment st.rollup_id)
                    st.latest_block)
                wrapped_tokens := wt1
                last_processed_block :=
                  min (st.last_processed_block + 1 + get_block_increment st.rollup_id)
                    st.latest_block
                latest_block := env.blockNumber } ∧
        ops = Op.getLogs (st.last_processed_block + 1)
              (min (st.last_processed_block + 1 + get_block_increment st.rollup_id)
                st.latest_block)
              (AddrFilter.single st.bridge_address) none none none
            :: (ops1 ++ ops2
              ++ [Op.getLogs (st.last_processed_block + 1)
                    (min (st.last_processed_block + 1 + get_block_increment st.rollup_id)
                      st.latest_block)
                    AddrFilter.any (some transfer_sig)
                    (some (to_topic st.bridge_address)) none,
                  Op.getLogs (st.last_processed_block + 1)
                    (min (st.last_processed_block + 1 + get_block_increment st.rollup_id)
                      st.latest_block)
                    AddrFilter.any (some transfer_sig) none
                    (some (to_topic st.bridge_address))]
              ++ ops3
              ++ (pass3in db3 st.rollup_id
                    (env.inLogs (st.last_processed_block + 1)
                      (min (st.last_processed_block + 1
                          + get_block_increment st.rollup_id) st.latest_block))).2
              ++ [Op.setCheckpoint st.rollup_id
                    (min (st.last_processed_block + 1 + get_block_increment st.rollup_id)
                      st.latest_block)]) := by
  intro env st st1 ops hrun hlt h
  unfold indexStep at h
  rw [if_neg (by simp [hrun]), if_neg (by omega)] at h
  dsimp only at h
  split at h
  · cases h
  · rename_i db1 wt1 ops1 hA
    split at h
    · cases h
    · rename_i db2 ops2 hB
      split at h
      · cases h
      · rename_i db3 ops3 hC
        simp only [Except.ok.injEq, Prod.mk.injEq] at h
        obtain ⟨h1, h2⟩ := h
        exact ⟨db1, wt1, ops1, db2, ops2, db3, ops3, hA, hB, hC, h1.symm, h2.symm⟩

/-! ## C8 — window bounds and block increments -/

/-- C8: in every scanning iteration (`last < head`), the first `get_logs`
query of the iteration covers exactly the window
`[last + 1, min(last + 1 + block_increment, head)]` against the bridge
address, the checkpoint variable advances to that window end, and the
block increment is 1,000 for rollup ids 3 and 15 and 10,000 for every
other rollup id. -/
theorem window_bounds_per_iteration :
    ∀ (env : ChainEnv) (st : IndexerState) (st1 : IndexerState) (ops : List Op),
      st.running = true → st.last_processed_block < st.latest_block →
      indexStep env st = Except.ok (st1, ops) →
      ops.head? = some (Op.getLogs (st.last_processed_block + 1)
          (min (st.last_processed_block + 1 + get_block_increment st.rollup_id)
            st.latest_block)
          (AddrFilter.single st.bridge_address) none none none) ∧
      st1.last_processed_block
        = min (st.last_processed_block + 1 + get_block_increment st.rollup_id)
            st.latest_block ∧
      get_block_increment 3 = 1000 ∧ get_block_increment 15 = 1000 ∧
      ∀ rid : Nat, rid ≠ 3 → rid ≠ 15 → get_block_increment rid = 10000 := by
  intro env st st1 ops hrun hlt h
  obtain ⟨db1, wt1, ops1, db2, ops2, db3, ops3, hA, hB, hC, hst, hops⟩ :=
    indexStep_ok_inversion env st st1 ops hrun hlt h
  refine ⟨?_, ?_, rfl, rfl, ?_⟩
  · rw [hops]; rfl
  · rw [hst]
  · intro rid h3 h15
    unfold get_block_increment
    rw [if_neg h3, if_neg h15]

/-! ## C9 — newly discovered tokens filter the current window's pass 2 -/

/-- C9: a wrapped-token address decoded from a `NewWrappedToken` event in
pass 1 of a window is already part of the in-memory set when pass 2 of
the same window runs: it appears in the successor state's set, and both
the mint and the burn `get_logs` queries of that same iteration filter on
an address list containing it. -/
theorem new_tokens_used_in_current_window :
    ∀ (env : ChainEnv) (st : IndexerState) (st1 : IndexerState) (ops : List Op)
      (a : Address),
      st.running = true → st.last_processed_block < st.latest_block →
      indexStep env st = Except.ok (st1, ops) →
      a ∈ newWrappedAddrs (env.bridgeLogs (st.last_processed_block + 1)
        (min (st.last_processed_block + 1 + get_block_increment st.rollup_id)
          st.latest_block)) →
      a ∈ st1.wrapped_tokens ∧
      Op.getLogs (st.last_processed_block + 1)
          (min (st.last_processed_block + 1 + get_block_increment st.rollup_id)
            st.latest_block)
          (AddrFilter.many st1.wrapped_tokens) (some transfer_sig)
          (some (to_topic zero_address)) none ∈ ops ∧
      Op.getLogs (st.last_processed_block + 1)
          (min (st.last_processed_block + 1 + get_block_increment st.rollup_id)
            st.latest_block)
          (AddrFilter.many st1.wrapped_tokens) (some transfer_sig)
          none (some (to_topic zero_address)) ∈ ops := by
  intro env st st1 ops a hrun hlt h hmem
  obtain ⟨db1, wt1, ops1, db2, ops2, db3, ops3, hA, hB, hC, hst, hops⟩ :=
    indexStep_ok_inversion env st st1 ops hrun hlt h
  have hw := (pass1_ok_spec _ _ _ _ _ _ _ hA).1
  have ha1 : a ∈ wt1 := by
    rw [hw]
    exact List.mem_append_right _ hmem
  have hlen : wt1.length > 0 := List.length_pos.mpr (List.ne_nil_of_mem ha1)
  have hp2 := (pass2_ok_spec _ _ _ _ _ _ _ _ _ hB).2.2 hlen
  subst hst
  dsimp only
  refine ⟨ha1, ?_, ?_⟩
  · rw [hops]
    have hx := hp2.1
    simp only [List.mem_cons, List.mem_append]
    tauto
  · rw [hops]
    have hx := hp2.2
    simp only [List.mem_cons, List.mem_append]
    tauto

/-! ## C2 — Pass-3 decode failures -/

/-- A chain view whose only log is a bridge-out `Transfer` that fails to
decode. -/
def c2Env : ChainEnv :=
  { blockNumber := 10
    bridgeLogs := fun _ _ => []
    mintLogs := fun _ _ _ => []
    burnLogs := fun _ _ _ => []
    outLogs := fun _ _ => [Except.error ("bad log")]
    inLogs := fun _ _ => [] }

/-- A running worker with an empty store, five blocks behind. -/
def c2St : IndexerState :=
  { bridge_address := "0xbridgeaddr"
    rollup_id := 1
    database := emptyDatabase
    wrapped_tokens := []
    running := true
    last_processed_block := 0
    latest_block := 5 }

/-- Counterexample for C2: a single undecodable `Transfer` log in the
bridge-out scan (topic1 = bridge) makes the iteration return the decode
error — the worker aborts — contradicting the claim that every Pass-3
decode failure is logged and skipped and never aborts the worker. Only
the bridge-in loop (topic2 = bridge) skips decode failures; the
bridge-out loop propagates them with `?`. -/
theorem pass3_out_decode_failure_aborts :
    indexStep c2Env c2St = Except.error ("bad log") := by rfl

/-- C2 (amended): a Pass-3 decode failure is logged and skipped only in
the bridge-in scan — `pass3in` always succeeds, persists exactly the
decodable events and logs one message per failure — whereas a decode
failure in the bridge-out scan propagates out of the iteration and
aborts the worker with that error. -/
theorem pass3_decode_failure_semantics :
    (∀ (db : Database) (rid : Nat) (logs : List (Except String (RLog Transfer))),
      (pass3in db rid logs).1
        = logs.foldl (fun d l =>
            match l with
            | Except.ok lg => insert_bridge_transfer_event d lg rid
            | Except.error _ => d) db ∧
      ∀ e : String, Except.error e ∈ logs →
        Op.logError ("Error decoding log: " ++ e) ∈ (pass3in db rid logs).2) ∧
    (∀ (env : ChainEnv) (st : IndexerState) (db1 : Database) (wt1 : List Address)
      (ops1 : List Op) (db2 : Database) (ops2 : List Op) (e : String),
      st.running = true → st.last_processed_block < st.latest_block →
      pass1 st.database st.rollup_id st.wrapped_tokens
          (env.bridgeLogs (st.last_processed_block + 1)
            (min (st.last_processed_block + 1 + get_block_increment st.rollup_id)
              st.latest_block))
        = Except.ok (db1, wt1, ops1) →
      pass2 db1 st.rollup_id wt1
          (env.mintLogs (st.last_processed_block + 1)
            (min (st.last_processed_block + 1 + get_block_increment st.rollup_id)
              st.latest_block) wt1)
          (env.burnLogs (st.last_processed_block + 1)
            (min (st.last_processed_block + 1 + get_block_increment st.rollup_id)
              st.latest_block) wt1)
          (st.last_processed_block + 1)
          (min (st.last_processed_block + 1 + get_block_increment st.rollup_id)
            st.latest_block)
        = Except.ok (db2, ops2) →
      insertTransfersStrict insert_bridge_transfer_event ("bridge_transfer_events")
          db2 st.rollup_id
          (env.outLogs (st.last_processed_block + 1)
            (min (st.last_processed_block + 1 + get_block_increment st.rollup_id)
              st.latest_block))
        = Except.error e →
      indexStep env st = Except.error e) := by
  constructor
  · intro db rid logs
    exact ⟨pass3in_fst logs db rid, fun e he => pass3in_logs_error logs db rid e he⟩
  · intro env st db1 wt1 ops1 db2 ops2 e hrun hlt hA hB hC
    unfold indexStep
    rw [if_neg (by simp [hrun]), if_neg (by omega)]
    dsimp only
    rw [hA]
    dsimp only
    rw [hB]
    dsimp only
    rw [hC]

/-- A chain view for the C2 witness: one decodable and one undecodable
bridge-in `Transfer` log, plus the undecodable bridge-out log of the
counterexample environment. -/
def c2InLogs : List (Except String (RLog Transfer)) :=
  [Except.ok fixTransferLog, Except.error ("boom")]

/-- Witness for C2 (amended): on a concrete log list the bridge-in loop
persists only the decodable event while logging the failure, and on the
counterexample environment the bridge-out failure aborts the iteration
with its decode error. -/
theorem pass3_decode_failure_semantics_witness :
    (pass3in emptyDatabase 1 c2InLogs).1
        = insert_bridge_transfer_event emptyDatabase fixTransferLog 1 ∧
    Op.logError ("Error decoding log: " ++ "boom") ∈ (pass3in emptyDatabase 1 c2InLogs).2 ∧
    indexStep c2Env c2St = Except.error ("bad log") := by
  have h1 := (pass3_decode_failure_semantics.1 emptyDatabase 1 c2InLogs).1
  have h2 := (pass3_decode_failure_semantics.1 emptyDatabase 1 c2InLogs).2
    ("boom") (by simp [c2InLogs])
  have h3 := pass3_decode_failure_semantics.2 c2Env c2St emptyDatabase [] []
    emptyDatabase [] ("bad log") rfl (by decide) rfl rfl rfl
  exact ⟨by rw [h1]; rfl, h2, h3⟩

/-! ## C5 — checkpoint monotonicity and write ordering -/

/-- C5: under the worker's step relation the stored checkpoint
(`latest_bridge_synced_block`, read back through `last_indexed_block`)
never decreases; any checkpoint write of an iteration targets the
worker's own rollup, stores the window end — strictly greater than both
the loop's `last_processed_block` and the checkpoint last read or
written — and is the final action of the iteration's trace, occurring
only after every persist of that window has succeeded. -/
theorem checkpoint_monotone_step :
    ∀ (env : ChainEnv) (st : IndexerState) (st1 : IndexerState) (ops : List Op),
      last_indexed_block st.database st.rollup_id ≤ st.last_processed_block →
      indexStep env st = Except.ok (st1, ops) →
      st1.rollup_id = st.rollup_id ∧
      last_indexed_block st.database st.rollup_id
          ≤ last_indexed_block st1.database st.rollup_id ∧
      last_indexed_block st1.database st.rollup_id ≤ st1.last_processed_block ∧
      (∀ rid b, Op.setCheckpoint rid b ∈ ops →
        rid = st.rollup_id ∧ st.last_processed_block < b ∧
        last_indexed_block st.database st.rollup_id < b ∧
        ops.getLast? = some (Op.setCheckpoint rid b) ∧
        ∀ o ∈ ops.dropLast, isSetCheckpoint o = false) := by
  intro env st st1 ops hinv h
  by_cases hrun : st.running = true
  · by_cases hlt : st.last_processed_block < st.latest_block
    · obtain ⟨db1, wt1, ops1, db2, ops2, db3, ops3, hA, hB, hC, hst, hops⟩ :=
        indexStep_ok_inversion env st st1 ops hrun hlt h
      have hr1 := (pass1_ok_spec _ _ _ _ _ _ _ hA).2.1
      have hops1 := (pass1_ok_spec _ _ _ _ _ _ _ hA).2.2
      have hr2 := (pass2_ok_spec _ _ _ _ _ _ _ _ _ hB).1
      have hops2 := (pass2_ok_spec _ _ _ _ _ _ _ _ _ hB).2.1
      have hr3 := (insertTransfersStrict_ok_spec _ _ _ _ _ _ _
        insert_bridge_transfer_event_rollups hC).1
      have hops3 := (insertTransfersStrict_ok_spec _ _ _ _ _ _ _
        insert_bridge_transfer_event_rollups hC).2
      subst hst
      dsimp only
      have hpre : (pass3in db3 st.rollup_id
          (env.inLogs (st.last_processed_block + 1)
            (min (st.last_processed_block + 1 + get_block_increment st.rollup_id)
              st.latest_block))).1.rollups = st.database.rollups := by
        rw [pass3in_rollups, hr3, hr2, hr1]
      have hpreli : last_indexed_block (pass3in db3 st.rollup_id
          (env.inLogs (st.last_processed_block + 1)
            (min (st.last_processed_block + 1 + get_block_increment st.rollup_id)
              st.latest_block))).1 st.rollup_id
          = last_indexed_block st.database st.rollup_id := by
        unfold last_indexed_block
        rw [hpre]
      have hE1 : st.last_processed_block
          < min (st.last_processed_block + 1 + get_block_increment st.rollup_id)
              st.latest_block :=
        lt_min (by omega) hlt
      have hsy := last_indexed_block_synced_till (pass3in db3 st.rollup_id
          (env.inLogs (st.last_processed_block + 1)
            (min (st.last_processed_block + 1 + get_block_increment st.rollup_id)
              st.latest_block))).1 st.rollup_id
          (min (st.last_processed_block + 1 + get_block_increment st.rollup_id)
            st.latest_block)
      rw [hpreli] at hsy
      refine ⟨rfl, ?_, ?_, ?_⟩
      · cases hsy with
        | inl h' => rw [h']; omega
        | inr h' => rw [h'.1, h'.2]
      · cases hsy with
        | inl h' => rw [h']
        | inr h' => rw [h'.1]; omega
      · intro rid b hmemb
        rw [hops] at hmemb
        simp only [List.mem_cons, List.mem_append, List.mem_singleton] at hmemb
        rcases hmemb with h0 | ((((hm1 | hm2) | hm34) | hm3) | hm4) | hm5
        · simp at h0
        · have := hops1 _ hm1
          simp [isSetCheckpoint] at this
        · have := hops2 _ hm2
          simp [isSetCheckpoint] at this
        · rcases hm34 with h' | h'
          · simp at h'
          · simp at h'
        · have := hops3 _ hm3
          simp [isSetCheckpoint] at this
        · have := pass3in_no_checkpoint _ _ _ _ hm4
          simp [isSetCheckpoint] at this
        · rcases hm5 with hm5 | hm5
          swap
          · cases hm5
          obtain ⟨hr, hb⟩ := Op.setCheckpoint.inj hm5
          subst hr; subst hb
          refine ⟨rfl, hE1, by omega, ?_, ?_⟩
          · rw [hops, ← List.cons_append, List.getLast?_concat]
          · rw [hops, ← List.cons_append, List.dropLast_concat]
            intro o ho
            rcases List.mem_cons.mp ho with h0 | ho'
            · subst h0; rfl
            · simp only [List.mem_append, List.mem_cons, List.mem_singleton,
                List.not_mem_nil, or_false] at ho'
              rcases ho' with (((hm1 | hm2) | hm34) | hm3) | hm4
              · exact hops1 _ hm1
              · exact hops2 _ hm2
              · rcases hm34 with h' | h'
                · subst h'; rfl
                · subst h'; rfl
              · exact hops3 _ hm3
              · exact pass3in_no_checkpoint _ _ _ _ hm4
    · have hle : st.latest_block ≤ st.last_processed_block := by omega
      unfold indexStep at h
      rw [if_neg (by simp [hrun]), if_pos hle] at h
      simp only [Except.ok.injEq, Prod.mk.injEq] at h
      obtain ⟨h1, h2⟩ := h
      subst h1; subst h2
      refine ⟨rfl, le_refl _, hinv, ?_⟩
      intro rid b hmemb
      cases hmemb
  · rw [Bool.not_eq_true] at hrun
    unfold indexStep at h
    rw [if_pos hrun] at h
    simp only [Except.ok.injEq, Prod.mk.injEq] at h
    obtain ⟨h1, h2⟩ := h
    subst h1; subst h2
    refine ⟨rfl, le_refl _, hinv, ?_⟩
    intro rid b hmemb
    cases hmemb

/-! ## Concrete step fixtures and witnesses for C5, C8, C9 -/

/-- A chain view with no logs at all and head 10. -/
def fixEnvEmpty : ChainEnv :=
  { blockNumber := 10
    bridgeLogs := fun _ _ => []
    mintLogs := fun _ _ _ => []
    burnLogs := fun _ _ _ => []
    outLogs := fun _ _ => []
    inLogs := fun _ _ => [] }

/-- A running worker for rollup 2, checkpoint 0, observed head 5. -/
def fixStRunning : IndexerState :=
  { bridge_address := "0xbridgeaddr"
    rollup_id := 2
    database := { emptyDatabase with rollups :=
        [{ rollup_id := 2, network_name := "zkevm-b"
           latest_bridge_synced_block := some 0 }] }
    wrapped_tokens := []
    running := true
    last_processed_block := 0
    latest_block := 5 }

/-- The state after one log-free scan of window `[1, 5]`. -/
def fixStRunning1 : IndexerState :=
  { fixStRunning with
    database := { emptyDatabase with rollups :=
        [{ rollup_id := 2, network_name := "zkevm-b"
           latest_bridge_synced_block := some 5 }] }
    last_processed_block := 5
    latest_block := 10 }

/-- The trace of that log-free scan. -/
def fixOpsEmpty : List Op :=
  [Op.getLogs 1 5 (AddrFilter.single ("0xbridgeaddr")) none none none,
   Op.getLogs 1 5 AddrFilter.any (some transfer_sig)
     (some (to_topic ("0xbridgeaddr"))) none,
   Op.getLogs 1 5 AddrFilter.any (some transfer_sig)
     none (some (to_topic ("0xbridgeaddr"))),
   Op.setCheckpoint 2 5]

/-- Witness for C5: on the concrete log-free scan the stored checkpoint
rises from 0 to 5, stays at most the loop variable, and the checkpoint
write is the final trace action. -/
theorem checkpoint_monotone_step_witness :
    last_indexed_block fixStRunning.database 2
        ≤ last_indexed_block fixStRunning1.database 2 ∧
    last_indexed_block fixStRunning1.database 2
        ≤ fixStRunning1.last_processed_block ∧
    fixOpsEmpty.getLast? = some (Op.setCheckpoint 2 5) ∧
    0 < 5 := by
  have h := checkpoint_monotone_step fixEnvEmpty fixStRunning fixStRunning1
    fixOpsEmpty (by decide) (by rfl)
  have h4 := h.2.2.2 2 5 (by decide)
  exact ⟨h.2.1, h.2.2.1, h4.2.2.2.1, h4.2.1⟩

/-- Witness for C8: the concrete scan queried exactly the window `[1, 5]`
(`min(0 + 1 + 10000, 5) = 5`) against the bridge address, advanced the
loop checkpoint to 5, and the increments are 1,000 for rollups 3 and 15
and 10,000 for rollup 2. -/
theorem window_bounds_per_iteration_witness :
    fixOpsEmpty.head? = some (Op.getLogs 1 5
        (AddrFilter.single ("0xbridgeaddr")) none none none) ∧
    fixStRunning1.last_processed_block = 5 ∧
    get_block_increment 3 = 1000 ∧ get_block_increment 15 = 1000 ∧
    get_block_increment 2 = 10000 := by
  have h := window_bounds_per_iteration fixEnvEmpty fixStRunning fixStRunning1
    fixOpsEmpty rfl (by decide) (by rfl)
  exact ⟨h.1, h.2.1, h.2.2.1, h.2.2.2.1, h.2.2.2.2 2 (by decide) (by decide)⟩

/-- A chain view whose pass-1 logs hold one `NewWrappedToken` event. -/
def fixEnvWrapped : ChainEnv :=
  { blockNumber := 10
    bridgeLogs := fun _ _ => [Pass1Log.newWrappedToken fixWrappedLog]
    mintLogs := fun _ _ _ => []
    burnLogs := fun _ _ _ => []
    outLogs := fun _ _ => []
    inLogs := fun _ _ => [] }

/-- The store after pass 1 of that scan persisted the wrapped token. -/
def c9Db1 : Database :=
  insert_new_wrapped_token_event fixStRunning.database fixWrappedLog 2

/-- The successor state of the scan discovering `0xwrapped01`. -/
def c9St1 : IndexerState :=
  { fixStRunning with
    database := synced_till_block c9Db1 2 5
    wrapped_tokens := ["0xwrapped01"]
    last_processed_block := 5
    latest_block := 10 }

/-- The trace of the scan discovering `0xwrapped01`: the mint and burn
queries already filter on the token found in the same window. -/
def c9Ops : List Op :=
  [Op.getLogs 1 5 (AddrFilter.single ("0xbridgeaddr")) none none none,
   Op.insertRow ("new_wrapped_token_events") (hash_log fixWrappedLog 2),
   Op.getLogs 1 5 (AddrFilter.many ["0xwrapped01"]) (some transfer_sig)
     (some (to_topic zero_address)) none,
   Op.getLogs 1 5 (AddrFilter.many ["0xwrapped01"]) (some transfer_sig)
     none (some (to_topic zero_address)),
   Op.getLogs 1 5 AddrFilter.any (some transfer_sig)
     (some (to_topic ("0xbridgeaddr"))) none,
   Op.getLogs 1 5 AddrFilter.any (some transfer_sig)
     none (some (to_topic ("0xbridgeaddr"))),
   Op.setCheckpoint 2 5]

/-- Witness for C9: in the concrete scan the token discovered in pass 1
is in the successor set and both pass-2 queries of the same window
filter on it. -/
theorem new_tokens_used_in_current_window_witness :
    ("0xwrapped01" : Address) ∈ c9St1.wrapped_tokens ∧
    Op.getLogs 1 5 (AddrFilter.many c9St1.wrapped_tokens) (some transfer_sig)
        (some (to_topic zero_address)) none ∈ c9Ops ∧
    Op.getLogs 1 5 (AddrFilter.many c9St1.wrapped_tokens) (some transfer_sig)
        none (some (to_topic zero_address)) ∈ c9Ops := by
  have h := new_tokens_used_in_current_window fixEnvWrapped fixStRunning c9St1
    c9Ops ("0xwrapped01") rfl (by decide) (by rfl) (by decide)
  exact ⟨h.1, h.2.1, h.2.2⟩
